import Mathlib

/-!
Verification of the collective-signing consensus core (kernel/cosi.go,
kernel/final.go) of the mixin repository, as a shallow embedding.

External collaborators that are not part of the verified sources (the
crypto kit, the persistent store, committee membership and thresholds,
round digests) are passed in as explicit environment parameters; the
control flow of each handler is translated faithfully from the Go source.
-/

namespace Mixin

abbrev Hash := Nat
abbrev Key := Nat
abbrev Sig := Nat

/-- common.RoundLink: the two DAG edges of a round. -/
structure RoundLink where
  self : Hash
  external : Hash
deriving DecidableEq, Repr

/-- common.Snapshot: one proposed ledger entry. The Go `References` pointer is
modelled as a plain value; `Signature` is `Option` as in the source (nil
pointer). -/
structure Snapshot where
  version : Nat
  nodeId : Hash
  roundNumber : Nat
  references : RoundLink
  transaction : Hash
  timestamp : Nat
  signature : Option Sig
  hash : Hash
deriving DecidableEq, Repr

/-- kernel.CacheRound: the open per-chain round. -/
structure CacheRound where
  nodeId : Hash
  number : Nat
  timestamp : Nat
  references : RoundLink
  snapshots : List Snapshot
deriving DecidableEq, Repr

/-- kernel.FinalRound: a sealed round. -/
structure FinalRound where
  nodeId : Hash
  number : Nat
  start : Nat
  finish : Nat
  hash : Hash
deriving DecidableEq, Repr

/-- A round as returned by persistStore.ReadRound (the fields the handlers
consult: NodeId, Number, Timestamp). -/
structure StoredRound where
  nodeId : Hash
  number : Nat
  timestamp : Nat
deriving DecidableEq, Repr

/-! ## C1: VerifyAndQueueAppendSnapshotFinalization (cosi.go:718) -/

/-- Environment of the finalization entry point: committee membership,
the current snapshot version constant, and the external collaborators
(payload hash, consensus keys/threshold, aggregate verification, and the
CheckTransactionInNode storage read, `none` meaning a read error). -/
structure FinalizationEnv where
  consensusNodes : List Hash
  snapshotVersion : Nat
  payloadHash : Snapshot → Hash
  consensusKeys : Nat → List Key
  consensusThreshold : Nat → Nat
  cacheVerifyCosi : Hash → Sig → List Key → Nat → Bool
  checkTransactionInNode : Hash → Hash → Option Bool

/-- Observable effects of the finalization entry point: whether the legacy
path was taken, whether a confirmation was sent back to the peer, and the
queued append action (peer, snapshot) when one was enqueued. -/
structure FinalizationOutcome where
  legacy : Bool
  confirmSent : Bool
  queued : Option (Hash × Snapshot)
deriving DecidableEq, Repr

/-- Shallow embedding of Node.VerifyAndQueueAppendSnapshotFinalization
(cosi.go lines 718-748), translated check for check from the source. -/
def VerifyAndQueueAppendSnapshotFinalization (env : FinalizationEnv)
    (peerId : Hash) (s : Snapshot) : FinalizationOutcome :=
  if ¬ env.consensusNodes.contains peerId then ⟨false, false, none⟩
  else if s.version = 0 then ⟨true, false, none⟩
  else if s.version ≠ env.snapshotVersion then ⟨false, false, none⟩
  else
    match s.signature with
    | none => ⟨false, false, none⟩
    | some sig =>
      let s' : Snapshot := { s with hash := env.payloadHash s }
      let publics := env.consensusKeys s'.timestamp
      let base := env.consensusThreshold s'.timestamp
      if ¬ env.cacheVerifyCosi s'.hash sig publics base then ⟨false, false, none⟩
      else
        match env.checkTransactionInNode s'.nodeId s'.transaction with
        | none => ⟨false, true, none⟩
        | some true => ⟨false, true, none⟩
        | some false => ⟨false, true, some (peerId, s')⟩

/-- C1: for a committee peer, a snapshot of the current (nonzero) version and
a non-null signature: if aggregate verification against the committee keys
and threshold at the snapshot timestamp fails, no confirmation is sent and
nothing is queued; on success a confirmation is sent and the snapshot is
queued iff CheckTransactionInNode reports false. -/
theorem verify_and_queue_finalization_spec (env : FinalizationEnv)
    (peerId : Hash) (s : Snapshot) (sig : Sig)
    (hmem : env.consensusNodes.contains peerId = true)
    (hver : s.version = env.snapshotVersion)
    (hv0 : env.snapshotVersion ≠ 0)
    (hsig : s.signature = some sig) :
    (env.cacheVerifyCosi (env.payloadHash s) sig (env.consensusKeys s.timestamp)
        (env.consensusThreshold s.timestamp) = false →
      (VerifyAndQueueAppendSnapshotFinalization env peerId s).confirmSent = false ∧
      (VerifyAndQueueAppendSnapshotFinalization env peerId s).queued = none) ∧
    (env.cacheVerifyCosi (env.payloadHash s) sig (env.consensusKeys s.timestamp)
        (env.consensusThreshold s.timestamp) = true →
      (VerifyAndQueueAppendSnapshotFinalization env peerId s).confirmSent = true ∧
      ((VerifyAndQueueAppendSnapshotFinalization env peerId s).queued ≠ none ↔
        env.checkTransactionInNode s.nodeId s.transaction = some false)) := by
  have hv : s.version ≠ 0 := hver ▸ hv0
  constructor
  · intro hfail
    simp only [VerifyAndQueueAppendSnapshotFinalization, hmem, hv, hver, hsig, hfail]
    simp [hv0]
  · intro hok
    simp only [VerifyAndQueueAppendSnapshotFinalization, hmem, hv, hver, hsig, hok]
    cases hchk : env.checkTransactionInNode s.nodeId s.transaction with
    | none => simp [hchk, hv0]
    | some b => cases b <;> simp [hchk, hv0]

/-- A concrete committee/environment used to witness the C1 theorem. -/
def envC1 : FinalizationEnv where
  consensusNodes := [1, 2, 3]
  snapshotVersion := 1
  payloadHash := fun s => s.transaction + s.timestamp
  consensusKeys := fun _ => [10, 20, 30]
  consensusThreshold := fun _ => 2
  cacheVerifyCosi := fun _ _ _ _ => true
  checkTransactionInNode := fun _ _ => some false

/-- A concrete finalization snapshot used to witness the C1 theorem. -/
def snapC1 : Snapshot where
  version := 1
  nodeId := 2
  roundNumber := 4
  references := ⟨5, 6⟩
  transaction := 7
  timestamp := 1000
  signature := some 42
  hash := 0

/-- Witness for C1 at a concrete input. -/
theorem verify_and_queue_finalization_spec_witness :
    (VerifyAndQueueAppendSnapshotFinalization envC1 1 snapC1).confirmSent = true ∧
    ((VerifyAndQueueAppendSnapshotFinalization envC1 1 snapC1).queued ≠ none ↔
      envC1.checkTransactionInNode snapC1.nodeId snapC1.transaction = some false) :=
  (verify_and_queue_finalization_spec envC1 1 snapC1 42 (by decide) rfl
    (by decide) rfl).2 rfl

/-! ## Commitment handling (cosi.go:340, cosiHandleCommitment) -/

/-- Lookup in a Nat-keyed association list (a Go map). -/
def alGet {β : Type} (l : List (Nat × β)) (k : Nat) : Option β :=
  (l.find? (fun p => p.1 == k)).map (fun p => p.2)

/-- Insert-or-overwrite in a Nat-keyed association list (a Go map write). -/
def alSet {β : Type} (l : List (Nat × β)) (k : Nat) (v : β) : List (Nat × β) :=
  if l.any (fun p => p.1 == k) then
    l.map (fun p => if p.1 == k then (k, v) else p)
  else l ++ [(k, v)]

/-- kernel.CosiAggregator: the proposer-side aggregation state. Maps are
association lists; the committed/responsed sets are peer-id lists. -/
structure CosiAggregator where
  snapshot : Snapshot
  wantTxs : List (Hash × Bool)
  commitments : List (Nat × Key)
  responses : List (Nat × Sig)
  committed : List Hash
  responsed : List Hash
deriving DecidableEq, Repr

/-- Result of Node.checkTransaction: a storage error, or a pair of the
finalized flag and whether the transaction body is known (tx != nil). -/
inductive TxCheck where
  | fail : TxCheck
  | ok (finalized : Bool) (txKnown : Bool) : TxCheck
deriving DecidableEq, Repr

/-- Environment of cosiHandleCommitment: committee membership and order,
threshold, transaction check and the commitment aggregation primitive
(crypto.CosiAggregateCommitment, `none` meaning it errored). -/
structure CommitEnv where
  consensusNodes : List Hash
  sortedConsensusNodes : List Hash
  consensusThreshold : Nat → Nat
  checkTransaction : Hash → Hash → TxCheck
  aggregateCommitment : List (Nat × Key) → Option Sig

/-- Observable result of cosiHandleCommitment: the updated aggregator (as
looked up by snapshot hash), the Challenge messages sent as (peer,
transaction-body-attached) pairs, and whether an error was returned. -/
structure CommitOutcome where
  agg : Option CosiAggregator
  challenges : List (Hash × Bool)
  errored : Bool
deriving DecidableEq, Repr

/-- The recording step of cosiHandleCommitment (cosi.go lines 361-367): the
loop over SortedConsensusNodes stores the commitment at the peer's sorted
index and the want-tx flag under the peer id; a peer absent from the sorted
list records nothing. -/
def recordCommitment (env : CommitEnv) (ann : CosiAggregator)
    (peerId : Hash) (commitment : Key) (wantTx : Bool) : CosiAggregator :=
  match env.sortedConsensusNodes.indexOf? peerId with
  | some i =>
    { ann with
      commitments := alSet ann.commitments i commitment,
      wantTxs := alSet ann.wantTxs peerId wantTx }
  | none => ann

/-- Shallow embedding of Node.cosiHandleCommitment (cosi.go lines 340-393),
translated check for check from the source (the catch-up sleep at the top is
outside the model). -/
def cosiHandleCommitment (env : CommitEnv) (agg? : Option CosiAggregator)
    (peerId snapshotHash : Hash) (commitment : Key) (wantTx : Bool) :
    CommitOutcome :=
  match agg? with
  | none => ⟨none, [], false⟩
  | some ann =>
    if ann.committed.contains peerId then ⟨some ann, [], false⟩
    else
      let ann0 := { ann with committed := peerId :: ann.committed }
      if env.consensusNodes.contains peerId then
        let base := env.consensusThreshold ann0.snapshot.timestamp
        if ann0.commitments.length ≥ base then ⟨some ann0, [], false⟩
        else
          let ann1 := recordCommitment env ann0 peerId commitment wantTx
          if ann1.commitments.length < base then ⟨some ann1, [], false⟩
          else
            match env.checkTransaction snapshotHash ann1.snapshot.transaction with
            | TxCheck.fail => ⟨some ann1, [], true⟩
            | TxCheck.ok true _ => ⟨some ann1, [], false⟩
            | TxCheck.ok false false => ⟨some ann1, [], false⟩
            | TxCheck.ok false true =>
              match env.aggregateCommitment ann1.commitments with
              | none => ⟨some ann1, [], true⟩
              | some cosi =>
                let ann2 :=
                  { ann1 with snapshot := { ann1.snapshot with signature := some cosi } }
                ⟨some ann2,
                  env.consensusNodes.filterMap
                    (fun id => (alGet ann2.wantTxs id).map (fun w => (id, w))),
                  false⟩
      else ⟨some ann0, [], false⟩

/-- Record steps preserve the snapshot field. -/
theorem recordCommitment_snapshot (env : CommitEnv) (ann : CosiAggregator)
    (p : Hash) (c : Key) (w : Bool) :
    (recordCommitment env ann p c w).snapshot = ann.snapshot := by
  unfold recordCommitment
  cases env.sortedConsensusNodes.indexOf? p <;> rfl

/-- Record steps preserve the committed set. -/
theorem recordCommitment_committed (env : CommitEnv) (ann : CosiAggregator)
    (p : Hash) (c : Key) (w : Bool) :
    (recordCommitment env ann p c w).committed = ann.committed := by
  unfold recordCommitment
  cases env.sortedConsensusNodes.indexOf? p <;> rfl

/-- A concrete two-member committee with threshold 1 exercising the
commitment handler. -/
def envC4 : CommitEnv where
  consensusNodes := [1, 2]
  sortedConsensusNodes := [1, 2]
  consensusThreshold := fun _ => 1
  checkTransaction := fun _ _ => TxCheck.ok false true
  aggregateCommitment := fun _ => some 99

/-- A fresh aggregator with no commitments recorded yet. -/
def aggC4 : CosiAggregator where
  snapshot :=
    { version := 1, nodeId := 5, roundNumber := 0, references := ⟨3, 4⟩,
      transaction := 7, timestamp := 1000, signature := none, hash := 100 }
  wantTxs := []
  commitments := []
  responses := []
  committed := []
  responsed := []

/-- C4 counterexample: with committee {1, 2} and threshold 1, peer 1's
commitment makes the recorded commitments first reach the threshold, yet the
Challenge is sent only to peer 1 — committee member 2, which has no recorded
want-tx entry, receives no Challenge, contradicting "sends a Challenge
message to every committee member". -/
theorem cosi_challenge_not_all_members :
    aggC4.commitments.length < envC4.consensusThreshold aggC4.snapshot.timestamp ∧
    (cosiHandleCommitment envC4 (some aggC4) 1 100 7 true).agg.map
      (fun a => a.commitments.length) =
      some (envC4.consensusThreshold aggC4.snapshot.timestamp) ∧
    envC4.consensusNodes.contains 2 = true ∧
    (cosiHandleCommitment envC4 (some aggC4) 1 100 7 true).challenges.map
      Prod.fst = [1] := by
  decide

/-- C4 (amended): when the recorded commitments first reach the consensus
threshold for the snapshot's timestamp, the aggregated commitment is attached
to the snapshot as its preliminary signature and a Challenge is sent exactly
to the committee members having a recorded want-tx entry, with the
transaction body attached iff that recorded flag is true. -/
theorem cosi_challenge_spec (env : CommitEnv) (ann ann1 : CosiAggregator)
    (peerId snapshotHash : Hash) (commitment : Key) (wantTx : Bool) (cosi : Sig)
    (hann1 : ann1 = recordCommitment env
      { ann with committed := peerId :: ann.committed } peerId commitment wantTx)
    (hnew : ann.committed.contains peerId = false)
    (hmem : env.consensusNodes.contains peerId = true)
    (hbelow : ann.commitments.length < env.consensusThreshold ann.snapshot.timestamp)
    (hreach : ¬ ann1.commitments.length < env.consensusThreshold ann.snapshot.timestamp)
    (htx : env.checkTransaction snapshotHash ann.snapshot.transaction =
      TxCheck.ok false true)
    (hagg : env.aggregateCommitment ann1.commitments = some cosi) :
    (cosiHandleCommitment env (some ann) peerId snapshotHash commitment wantTx).agg =
      some { ann1 with snapshot := { ann1.snapshot with signature := some cosi } } ∧
    ∀ id w,
      (id, w) ∈ (cosiHandleCommitment env (some ann) peerId snapshotHash
          commitment wantTx).challenges ↔
      id ∈ env.consensusNodes ∧
        alGet ann1.wantTxs id = some (w : Bool) := by
  have hsnap : ann1.snapshot = ann.snapshot := by
    rw [hann1, recordCommitment_snapshot]
  simp only [cosiHandleCommitment, hnew, Bool.false_eq_true, if_false, hmem, if_true]
  have hb : ¬ env.consensusThreshold ann.snapshot.timestamp ≤ ann.commitments.length :=
    Nat.not_le.mpr hbelow
  rw [if_neg hb, ← hann1, if_neg hreach]
  rw [hsnap, htx, hagg]
  refine ⟨rfl, ?_⟩
  intro id w
  simp only [List.mem_filterMap, Option.map_eq_some']
  constructor
  · rintro ⟨a, ha, b, hb', heq⟩
    obtain ⟨rfl, rfl⟩ := Prod.mk.injEq .. ▸ heq
    exact ⟨ha, hb'⟩
  · rintro ⟨ha, hb'⟩
    exact ⟨id, ha, w, hb', rfl⟩

/-- The aggregator after peer 1's commitment is recorded in the concrete
scenario. -/
def aggC4r : CosiAggregator :=
  recordCommitment envC4 { aggC4 with committed := [1] } 1 7 true

/-- Witness for the amended C4 theorem at the concrete scenario. -/
theorem cosi_challenge_spec_witness :
    (cosiHandleCommitment envC4 (some aggC4) 1 100 7 true).agg =
      some { aggC4r with snapshot := { aggC4r.snapshot with signature := some 99 } } ∧
    ((2, true) ∈ (cosiHandleCommitment envC4 (some aggC4) 1 100 7 true).challenges ↔
      2 ∈ envC4.consensusNodes ∧ alGet aggC4r.wantTxs 2 = some true) :=
  ⟨(cosi_challenge_spec envC4 aggC4 aggC4r 1 100 7 true 99 (by decide) (by decide)
      (by decide) (by decide) (by decide) (by decide) (by decide)).1,
   (cosi_challenge_spec envC4 aggC4 aggC4r 1 100 7 true 99 (by decide) (by decide)
      (by decide) (by decide) (by decide) (by decide) (by decide)).2 2 true⟩

/-- A commitment from an already-counted peer is a pure drop. -/
theorem cosiHandleCommitment_dup (env : CommitEnv) (ann : CosiAggregator)
    (p h : Hash) (c : Key) (w : Bool) (hc : ann.committed.contains p = true) :
    cosiHandleCommitment env (some ann) p h c w = ⟨some ann, [], false⟩ := by
  simp only [cosiHandleCommitment]
  rw [if_pos hc]

/-- On a not-yet-counted peer, every branch of the commitment handler
returns a state whose committed set is the input's with the peer prepended:
the peer is marked as seen before any other check. -/
theorem cosiHandleCommitment_agg_output (env : CommitEnv) (ann : CosiAggregator)
    (p h : Hash) (c : Key) (w : Bool)
    (hc : ann.committed.contains p = false) :
    ∃ ann1, (cosiHandleCommitment env (some ann) p h c w).agg = some ann1 ∧
      ann1.committed = p :: ann.committed := by
  simp only [cosiHandleCommitment, hc, Bool.false_eq_true, if_false]
  split
  · split
    · exact ⟨_, rfl, rfl⟩
    · split
      · exact ⟨_, rfl, by simp [recordCommitment_committed]⟩
      · split
        · exact ⟨_, rfl, by simp [recordCommitment_committed]⟩
        · exact ⟨_, rfl, by simp [recordCommitment_committed]⟩
        · exact ⟨_, rfl, by simp [recordCommitment_committed]⟩
        · split
          · exact ⟨_, rfl, by simp [recordCommitment_committed]⟩
          · exact ⟨_, rfl, by simp [recordCommitment_committed]⟩
  · exact ⟨_, rfl, rfl⟩

/-- Whatever the commitment handler returns as the new aggregator state, the
acting peer is in its committed set. -/
theorem cosiHandleCommitment_marks (env : CommitEnv) (ann ann1 : CosiAggregator)
    (p h : Hash) (c : Key) (w : Bool)
    (hout : (cosiHandleCommitment env (some ann) p h c w).agg = some ann1) :
    ann1.committed.contains p = true := by
  by_cases hc : ann.committed.contains p = true
  · rw [cosiHandleCommitment_dup env ann p h c w hc] at hout
    cases hout
    exact hc
  · obtain ⟨a, ha, hco⟩ := cosiHandleCommitment_agg_output env ann p h c w
      (Bool.not_eq_true _ ▸ hc)
    rw [hout] at ha
    cases ha
    simp [hco]

/-- C7: a commitment action is ignored when the aggregator is absent, the
peer is already counted, the peer is not a committee member, or the recorded
commitments already reach the threshold; and for two actions from the same
peer on the same aggregator, the second leaves the state (and hence the
recorded commitments) unchanged and sends nothing. -/
theorem cosi_commitment_dedup (env env2 : CommitEnv) (ann : CosiAggregator)
    (p h h2 : Hash) (c c2 : Key) (w w2 : Bool) :
    (cosiHandleCommitment env none p h c w = ⟨none, [], false⟩) ∧
    (ann.committed.contains p = true →
      cosiHandleCommitment env (some ann) p h c w = ⟨some ann, [], false⟩) ∧
    (env.consensusNodes.contains p = false →
      (cosiHandleCommitment env (some ann) p h c w).agg.map
        (fun a => a.commitments) = some ann.commitments ∧
      (cosiHandleCommitment env (some ann) p h c w).challenges = []) ∧
    (env.consensusThreshold ann.snapshot.timestamp ≤ ann.commitments.length →
      (cosiHandleCommitment env (some ann) p h c w).agg.map
        (fun a => a.commitments) = some ann.commitments ∧
      (cosiHandleCommitment env (some ann) p h c w).challenges = []) ∧
    (∀ ann1, (cosiHandleCommitment env (some ann) p h c w).agg = some ann1 →
      cosiHandleCommitment env2 (some ann1) p h2 c2 w2 = ⟨some ann1, [], false⟩) := by
  refine ⟨rfl, cosiHandleCommitment_dup env ann p h c w, ?_, ?_, ?_⟩
  · intro hnm
    have hnm' : p ∉ env.consensusNodes := by simpa using hnm
    by_cases hc : ann.committed.contains p = true
    · simp [cosiHandleCommitment_dup env ann p h c w hc]
    · have hc' : p ∉ ann.committed := by simpa using hc
      simp [cosiHandleCommitment, hc', hnm']
  · intro hfull
    by_cases hc : ann.committed.contains p = true
    · simp [cosiHandleCommitment_dup env ann p h c w hc]
    · have hc' : p ∉ ann.committed := by simpa using hc
      by_cases hm : p ∈ env.consensusNodes
      · simp [cosiHandleCommitment, hc', hm, hfull]
      · simp [cosiHandleCommitment, hc', hm]
  · intro ann1 hout
    exact cosiHandleCommitment_dup env2 ann1 p h2 c2 w2
      (cosiHandleCommitment_marks env ann ann1 p h c w hout)

/-- The aggregator of the concrete scenario after the Challenge round. -/
def aggC4sig : CosiAggregator :=
  { aggC4r with snapshot := { aggC4r.snapshot with signature := some 99 } }

/-- Witness for C7 at a concrete input: the aggregator state produced by
peer 1's first commitment absorbs a second commitment from peer 1 with no
change, and an aggregator already at threshold ignores a fresh peer's
commitment without touching the recorded commitments. -/
theorem cosi_commitment_dedup_witness :
    cosiHandleCommitment envC4 (some aggC4sig) 1 101 8 false =
      ⟨some aggC4sig, [], false⟩ ∧
    (cosiHandleCommitment envC4 (some aggC4sig) 2 101 8 false).agg.map
      (fun a => a.commitments) = some aggC4sig.commitments :=
  ⟨(cosi_commitment_dedup envC4 envC4 aggC4 1 100 101 7 8 true false).2.2.2.2
      aggC4sig (by decide),
   ((cosi_commitment_dedup envC4 envC4 aggC4sig 2 101 101 8 8 false false).2.2.2.1
      (by decide)).1⟩

/-- A committee in which node 1 is not a member. -/
def envC9 : CommitEnv :=
  { envC4 with consensusNodes := [2], sortedConsensusNodes := [2] }

/-- C9: the peer is marked as committed before the committee-membership
check, so a commitment from a non-member peer records nothing but still
marks the peer, and every later commitment from that peer for the same
snapshot is dropped unchanged, under any later committee. -/
theorem cosi_commitment_premark (env : CommitEnv) (ann : CosiAggregator)
    (p h : Hash) (c : Key) (w : Bool)
    (hnc : ann.committed.contains p = false)
    (hnm : env.consensusNodes.contains p = false) :
    cosiHandleCommitment env (some ann) p h c w =
      ⟨some { ann with committed := p :: ann.committed }, [], false⟩ ∧
    ∀ (env2 : CommitEnv) (h2 : Hash) (c2 : Key) (w2 : Bool),
      cosiHandleCommitment env2 (some { ann with committed := p :: ann.committed })
          p h2 c2 w2 =
        ⟨some { ann with committed := p :: ann.committed }, [], false⟩ := by
  constructor
  · have hc' : p ∉ ann.committed := by simpa using hnc
    have hnm' : p ∉ env.consensusNodes := by simpa using hnm
    simp [cosiHandleCommitment, hc', hnm']
  · intro env2 h2 c2 w2
    refine cosiHandleCommitment_dup env2 _ p h2 c2 w2 ?_
    simp [List.contains]

/-- Witness for C9: peer 1 is not in the committee `[2]`, its commitment is
not recorded but the peer is marked; a later commitment from peer 1 under
the committee `[1, 2]` (where it is a member) is still dropped unchanged. -/
theorem cosi_commitment_premark_witness :
    cosiHandleCommitment envC9 (some aggC4) 1 100 7 true =
      ⟨some { aggC4 with committed := [1] }, [], false⟩ ∧
    cosiHandleCommitment envC4 (some { aggC4 with committed := [1] }) 1 101 8 false =
      ⟨some { aggC4 with committed := [1] }, [], false⟩ :=
  ⟨(cosi_commitment_premark envC9 aggC4 1 100 7 true (by decide) (by decide)).1,
   (cosi_commitment_premark envC9 aggC4 1 100 7 true (by decide) (by decide)).2
      envC4 101 8 false⟩

/-! ## C6: CosiAggregateSelfResponses (cosi.go:676) -/

/-- Environment of the self-response entry point: committee, sorted
committee, transaction check, consensus keys and the
CosiSignature.VerifyResponse primitive (aggregate, publics, signer index,
response scalar, message — true meaning verification passed). -/
structure SelfResponseEnv where
  consensusNodes : List Hash
  sortedConsensusNodes : List Hash
  checkTransaction : Hash → Hash → TxCheck
  consensusKeys : Nat → List Key
  verifyResponse : Sig → List Key → Nat → Sig → Hash → Bool

/-- Observable result of the self-response entry point: the aggregator as
it stands afterwards, the enqueued SelfResponse action (peer, snapshot
hash, response) if any, whether an error was returned, and whether a nil
signature was dereferenced. -/
structure SelfResponseOutcome where
  agg : Option CosiAggregator
  queued : Option (Hash × Hash × Sig)
  errored : Bool
  panicked : Bool
deriving DecidableEq, Repr

/-- Shallow embedding of Node.CosiAggregateSelfResponses (cosi.go lines
676-716), translated check for check from the source. -/
def CosiAggregateSelfResponses (env : SelfResponseEnv)
    (agg? : Option CosiAggregator) (peerId snap : Hash) (response : Sig) :
    SelfResponseOutcome :=
  if ¬ env.consensusNodes.contains peerId then ⟨agg?, none, false, false⟩
  else
    match agg? with
    | none => ⟨none, none, false, false⟩
    | some agg =>
      match env.checkTransaction agg.snapshot.nodeId agg.snapshot.transaction with
      | TxCheck.fail => ⟨some agg, none, true, false⟩
      | TxCheck.ok true _ => ⟨some agg, none, false, false⟩
      | TxCheck.ok false false => ⟨some agg, none, false, false⟩
      | TxCheck.ok false true =>
        match env.sortedConsensusNodes.indexOf? peerId with
        | none => ⟨some agg, none, false, false⟩
        | some index =>
          match agg.snapshot.signature with
          | none => ⟨some agg, none, false, true⟩
          | some sig =>
            if env.verifyResponse sig (env.consensusKeys agg.snapshot.timestamp)
                index response snap then
              ⟨some agg, some (peerId, snap, response), false, false⟩
            else ⟨some agg, none, false, false⟩

/-- C6: with an existing aggregator, the entry point checks the response
scalar against the snapshot's stored aggregate signature at the peer's
sorted-committee index with the keys at the snapshot's timestamp; if that
verification fails nothing is enqueued, the aggregator is never mutated,
and a SelfResponse is enqueued only when verification passes. -/
theorem cosi_aggregate_self_responses_spec (env : SelfResponseEnv)
    (agg : CosiAggregator) (peerId snap : Hash) (response sig : Sig) (index : Nat)
    (hidx : env.sortedConsensusNodes.indexOf? peerId = some index)
    (hsig : agg.snapshot.signature = some sig) :
    (env.verifyResponse sig (env.consensusKeys agg.snapshot.timestamp)
        index response snap = false →
      (CosiAggregateSelfResponses env (some agg) peerId snap response).queued = none) ∧
    ((CosiAggregateSelfResponses env (some agg) peerId snap response).agg = some agg) ∧
    ((CosiAggregateSelfResponses env (some agg) peerId snap response).queued ≠ none →
      env.verifyResponse sig (env.consensusKeys agg.snapshot.timestamp)
          index response snap = true ∧
      (CosiAggregateSelfResponses env (some agg) peerId snap response).queued =
        some (peerId, snap, response)) := by
  by_cases hmem : env.consensusNodes.contains peerId = true
  · simp only [CosiAggregateSelfResponses, hmem, not_true, if_neg, ite_not]
    cases htx : env.checkTransaction agg.snapshot.nodeId agg.snapshot.transaction with
    | fail => simp
    | ok finalized txKnown =>
      cases finalized <;> cases txKnown <;> simp_all <;>
        (cases hv : env.verifyResponse sig (env.consensusKeys agg.snapshot.timestamp)
          index response snap <;> simp_all)
  · simp only [CosiAggregateSelfResponses, hmem]
    simp [Bool.not_eq_true _ ▸ hmem]

/-- A concrete environment whose response verification accepts exactly the
scalar 5. -/
def envC6 : SelfResponseEnv where
  consensusNodes := [1, 2]
  sortedConsensusNodes := [1, 2]
  checkTransaction := fun _ _ => TxCheck.ok false true
  consensusKeys := fun _ => [10, 20]
  verifyResponse := fun _ _ _ r _ => r == 5

/-- An aggregator holding a snapshot with a stored aggregate signature. -/
def aggC6 : CosiAggregator :=
  { aggC4 with snapshot := { aggC4.snapshot with signature := some 42 } }

/-- Witness for C6: response 7 fails verification, nothing is enqueued and
the aggregator is unchanged. -/
theorem cosi_aggregate_self_responses_spec_witness :
    (CosiAggregateSelfResponses envC6 (some aggC6) 2 100 7).queued = none ∧
    (CosiAggregateSelfResponses envC6 (some aggC6) 2 100 7).agg = some aggC6 :=
  ⟨(cosi_aggregate_self_responses_spec envC6 aggC6 2 100 7 42 1
      (by decide) (by decide)).1 (by decide),
   (cosi_aggregate_self_responses_spec envC6 aggC6 2 100 7 42 1
      (by decide) (by decide)).2.1⟩

/-! ## C10: CosiQueueExternalAnnouncement (cosi.go:626) -/

/-- Environment of the external-announcement entry point. -/
structure QueueAnnEnv where
  consensusNodes : List Hash
  selfId : Hash
  snapshotVersion : Nat
  payloadHash : Snapshot → Hash

/-- Shallow embedding of Node.CosiQueueExternalAnnouncement (cosi.go lines
626-642): returns the queued (peer, snapshot) append action, or `none` when
the announcement is silently dropped. -/
def CosiQueueExternalAnnouncement (env : QueueAnnEnv) (peerId : Hash)
    (s : Snapshot) : Option (Hash × Snapshot) :=
  if ¬ env.consensusNodes.contains s.nodeId then none
  else if s.version ≠ env.snapshotVersion then none
  else if s.nodeId = env.selfId ∨ s.nodeId ≠ peerId then none
  else if s.signature ≠ none ∨ s.timestamp = 0 then none
  else some (peerId, { s with hash := env.payloadHash s })

/-- C10: an announcement whose snapshot node id differs from the sending
peer is silently dropped, and any enqueued announcement was sent by the
proposing node itself (with, in addition, the membership / version /
signature / timestamp conditions). -/
theorem cosi_queue_external_announcement_relay (env : QueueAnnEnv)
    (peerId : Hash) (s : Snapshot) :
    (s.nodeId ≠ peerId → CosiQueueExternalAnnouncement env peerId s = none) ∧
    (CosiQueueExternalAnnouncement env peerId s ≠ none →
      s.nodeId = peerId ∧ env.consensusNodes.contains s.nodeId = true ∧
      s.version = env.snapshotVersion ∧ s.nodeId ≠ env.selfId ∧
      s.signature = none ∧ s.timestamp ≠ 0) := by
  constructor
  · intro hne
    simp only [CosiQueueExternalAnnouncement]
    split
    · rfl
    · split
      · rfl
      · rw [if_pos (Or.inr hne)]
  · intro hq
    simp only [CosiQueueExternalAnnouncement] at hq
    by_cases h1 : env.consensusNodes.contains s.nodeId = true
    · by_cases h2 : s.version = env.snapshotVersion
      · by_cases h3 : s.nodeId = env.selfId ∨ s.nodeId ≠ peerId
        · rw [if_neg (by simpa using h1), if_neg (by simp [h2]), if_pos h3] at hq
          exact absurd rfl hq
        · push_neg at h3
          by_cases h4 : s.signature ≠ none ∨ s.timestamp = 0
          · rw [if_neg (by simpa using h1), if_neg (by simp [h2]),
              if_neg (by simpa using h3), if_pos h4] at hq
            exact absurd rfl hq
          · push_neg at h4
            exact ⟨h3.2, h1, h2, h3.1, h4.1, h4.2⟩
      · rw [if_neg (by simpa using h1), if_pos h2] at hq
        exact absurd rfl hq
    · rw [if_pos (by simpa using h1)] at hq
      exact absurd rfl hq

/-- Witness for C10: a snapshot proposed by node 2 but relayed by peer 1 is
dropped. -/
theorem cosi_queue_external_announcement_relay_witness :
    CosiQueueExternalAnnouncement
      ⟨[1, 2], 9, 1, fun s => s.transaction⟩ 1
      { version := 1, nodeId := 2, roundNumber := 0, references := ⟨3, 4⟩,
        transaction := 7, timestamp := 1000, signature := none, hash := 0 } =
      none :=
  (cosi_queue_external_announcement_relay
    ⟨[1, 2], 9, 1, fun s => s.transaction⟩ 1
    { version := 1, nodeId := 2, roundNumber := 0, references := ⟨3, 4⟩,
      transaction := 7, timestamp := 1000, signature := none, hash := 0 }).1
    (by decide)

/-! ## C8: tryToStartNewRound (final.go:32) -/

/-- Result of chain.startNewRound(s, cache, allowDummy): error, nil round,
or a sealed prior round together with the dummy-reference flag. The
function itself lives outside the verified sources and is a parameter. -/
inductive StartRes where
  | fail : StartRes
  | nothing : StartRes
  | ok (round : FinalRound) (dummy : Bool) : StartRes
deriving DecidableEq, Repr

/-- The chain state consulted by tryToStartNewRound. -/
structure ChainState where
  cacheRound : Option CacheRound
  finalRound : Option FinalRound
deriving DecidableEq, Repr

/-- Environment of tryToStartNewRound: the chain id and the
allowDummy = true instance of startNewRound. -/
structure ChainEnv where
  chainId : Hash
  startNewRoundDummy : Snapshot → CacheRound → StartRes

/-- Result of tryToStartNewRound: a panic, a plain (dummy=false, nil error)
return without starting, an error return, or a newly started round with the
new cache, the sealed final round and the returned dummy flag. -/
inductive TryStartOutcome where
  | panicked : TryStartOutcome
  | pass : TryStartOutcome
  | fail : TryStartOutcome
  | started (newCache : CacheRound) (newFinal : FinalRound) (dummy : Bool) :
      TryStartOutcome
deriving DecidableEq, Repr

/-- Shallow embedding of Chain.tryToStartNewRound (final.go lines 32-77),
translated check for check from the source. -/
def tryToStartNewRound (env : ChainEnv) (st : ChainState) (s : Snapshot) :
    TryStartOutcome :=
  if env.chainId ≠ s.nodeId then TryStartOutcome.panicked
  else if st.finalRound = none ∧ s.roundNumber = 0 then TryStartOutcome.pass
  else
    match st.cacheRound with
    | none => TryStartOutcome.fail
    | some cache =>
      if s.roundNumber ≠ cache.number + 1 then TryStartOutcome.pass
      else
        let dummyExternal := cache.references.external
        match env.startNewRoundDummy s cache with
        | StartRes.fail => TryStartOutcome.fail
        | StartRes.nothing => TryStartOutcome.pass
        | StartRes.ok round dummy =>
          TryStartOutcome.started
            { nodeId := s.nodeId, number := s.roundNumber,
              timestamp := s.timestamp,
              references :=
                { self := s.references.self,
                  external :=
                    if dummy then dummyExternal else s.references.external },
              snapshots := [] }
            round dummy

/-- C8: on the finalization-replay path, when the snapshot opens the next
round and startNewRound succeeds but reports a dummy external reference,
the newly opened cache round keeps the previous cache round's external
reference while its self reference is the snapshot's, and the dummy flag is
returned to the caller. -/
theorem try_to_start_new_round_dummy (env : ChainEnv) (st : ChainState)
    (s : Snapshot) (cache : CacheRound) (f round : FinalRound)
    (hid : env.chainId = s.nodeId)
    (hfin : st.finalRound = some f)
    (hcache : st.cacheRound = some cache)
    (hnum : s.roundNumber = cache.number + 1)
    (hstart : env.startNewRoundDummy s cache = StartRes.ok round true) :
    tryToStartNewRound env st s =
      TryStartOutcome.started
        { nodeId := s.nodeId, number := s.roundNumber, timestamp := s.timestamp,
          references :=
            { self := s.references.self, external := cache.references.external },
          snapshots := [] }
        round true := by
  simp only [tryToStartNewRound, hid, hcache, hfin, hstart]
  rw [if_neg (by simp), if_neg (by simp), if_neg (by simp [hnum])]
  simp

/-- Witness for C8 at a concrete chain state where startNewRound reports a
dummy reference. -/
theorem try_to_start_new_round_dummy_witness :
    tryToStartNewRound
      ⟨2, fun _ _ => StartRes.ok ⟨2, 3, 50, 90, 77⟩ true⟩
      ⟨some ⟨2, 3, 90, ⟨70, 71⟩, []⟩, some ⟨2, 3, 50, 90, 77⟩⟩
      { version := 1, nodeId := 2, roundNumber := 4, references := ⟨80, 81⟩,
        transaction := 7, timestamp := 120, signature := some 5, hash := 6 } =
      TryStartOutcome.started ⟨2, 4, 120, ⟨80, 71⟩, []⟩ ⟨2, 3, 50, 90, 77⟩ true :=
  try_to_start_new_round_dummy
    ⟨2, fun _ _ => StartRes.ok ⟨2, 3, 50, 90, 77⟩ true⟩
    ⟨some ⟨2, 3, 90, ⟨70, 71⟩, []⟩, some ⟨2, 3, 50, 90, 77⟩⟩
    { version := 1, nodeId := 2, roundNumber := 4, references := ⟨80, 81⟩,
      transaction := 7, timestamp := 120, signature := some 5, hash := 6 }
    ⟨2, 3, 90, ⟨70, 71⟩, []⟩ ⟨2, 3, 50, 90, 77⟩ ⟨2, 3, 50, 90, 77⟩
    rfl rfl rfl rfl rfl

/-! ## C3: the stamping loop of cosiSendAnnouncement (cosi.go:146-152) -/

/-- The timestamp-stamping loop of cosiSendAnnouncement: repeatedly stamps
the snapshot with the current wall clock reading and exits once it strictly
exceeds the copied cache round's timestamp. The wall clock is an arbitrary
sequence of readings indexed by iteration; fuel bounds the modelled
iterations (the Go loop sleeps 300 ms between readings). -/
def stampTimestampLoop (clock : Nat → Nat) (cacheTimestamp : Nat) :
    Nat → Nat → Option Nat
  | _, 0 => none
  | i, fuel + 1 =>
    if cacheTimestamp < clock i then some (clock i)
    else stampTimestampLoop clock cacheTimestamp (i + 1) fuel

/-- Modelled from the spec: `CacheRound.gap()` (kernel round code, absent
from the sources here) returns the timestamp window covered by the round;
this is its lower end, the earliest contained snapshot timestamp. -/
def CacheRound.gapStart (c : CacheRound) : Nat :=
  (c.snapshots.map Snapshot.timestamp).foldl min (2 ^ 64 - 1)

/-- Modelled from the spec: `CacheRound.ValidateSnapshot` (kernel round
code, absent from the sources here), section 4.5: matching
node/number/references, snapshot timestamp strictly above every timestamp
already in the cache and within the gap bound, transaction unique within
the round. -/
def CacheRound.validateSnapshot (gap : Nat) (c : CacheRound) (s : Snapshot) :
    Bool :=
  s.nodeId == c.nodeId && s.roundNumber == c.number &&
  decide (s.references = c.references) &&
  c.snapshots.all (fun p => p.timestamp < s.timestamp) &&
  (c.snapshots.isEmpty || s.timestamp < c.gapStart + gap) &&
  c.snapshots.all (fun p => p.transaction != s.transaction)

/-- Any value returned by the stamping loop strictly exceeds the cache
timestamp it was gated on. -/
theorem stampTimestampLoop_gt (clock : Nat → Nat) (cacheTimestamp : Nat) :
    ∀ i fuel t, stampTimestampLoop clock cacheTimestamp i fuel = some t →
      cacheTimestamp < t := by
  intro i fuel
  induction fuel generalizing i with
  | zero => intro t h; cases h
  | succ n ih =>
    intro t h
    unfold stampTimestampLoop at h
    by_cases hlt : cacheTimestamp < clock i
    · rw [if_pos hlt] at h
      cases h
      exact hlt
    · rw [if_neg hlt] at h
      exact ih (i + 1) t h

/-- C3: the stamped timestamp strictly exceeds the copied cache round's
timestamp; hence (with the cache timestamp bounding its contents, its
stated invariant) it strictly exceeds every timestamp already in the round;
and independently, any snapshot accepted by cache validation has a
timestamp strictly above every timestamp already in that cache round. -/
theorem announcement_timestamp_strictly_monotonic (clock : Nat → Nat)
    (cache : CacheRound) (i fuel t gap : Nat) (s : Snapshot)
    (hstamp : stampTimestampLoop clock cache.timestamp i fuel = some t) :
    cache.timestamp < t ∧
    ((∀ p ∈ cache.snapshots, p.timestamp ≤ cache.timestamp) →
      ∀ p ∈ cache.snapshots, p.timestamp < t) ∧
    (CacheRound.validateSnapshot gap cache s = true →
      ∀ p ∈ cache.snapshots, p.timestamp < s.timestamp) := by
  have hgt := stampTimestampLoop_gt clock cache.timestamp i fuel t hstamp
  refine ⟨hgt, ?_, ?_⟩
  · intro hmax p hp
    exact Nat.lt_of_le_of_lt (hmax p hp) hgt
  · intro hval p hp
    simp only [CacheRound.validateSnapshot, Bool.and_eq_true, List.all_eq_true,
      decide_eq_true_eq] at hval
    exact hval.1.1.2 p hp

/-- A cache round at timestamp 6 containing one snapshot. -/
def cacheC3 : CacheRound where
  nodeId := 2
  number := 1
  timestamp := 6
  references := ⟨3, 4⟩
  snapshots :=
    [{ version := 1, nodeId := 2, roundNumber := 1, references := ⟨3, 4⟩,
       transaction := 7, timestamp := 6, signature := none, hash := 9 }]

/-- A candidate snapshot stamped at 7 against cacheC3. -/
def snapC3 : Snapshot where
  version := 1
  nodeId := 2
  roundNumber := 1
  references := ⟨3, 4⟩
  transaction := 8
  timestamp := 7
  signature := none
  hash := 11

/-- Witness for C3: a concrete clock reading 5, 6, 7, … against a cache at
timestamp 6 stamps 7, strictly above both contained timestamps. -/
theorem announcement_timestamp_strictly_monotonic_witness :
    stampTimestampLoop (fun n => n + 5) cacheC3.timestamp 0 4 = some 7 ∧
    cacheC3.timestamp < 7 ∧
    ∀ p ∈ cacheC3.snapshots, p.timestamp < 7 :=
  ⟨by decide,
   (announcement_timestamp_strictly_monotonic (fun n => n + 5) cacheC3
      0 4 7 10 snapC3 (by decide)).1,
   (announcement_timestamp_strictly_monotonic (fun n => n + 5) cacheC3
      0 4 7 10 snapC3 (by decide)).2.1 (by decide)⟩

/-! ## C5: cosiHandleAnnouncement (cosi.go:224) -/

/-- Result of a persistStore.ReadRound call: storage error, nil round, or
the stored round. -/
inductive ReadRes where
  | fail : ReadRes
  | notFound : ReadRes
  | found (r : StoredRound) : ReadRes
deriving DecidableEq, Repr

/-- Result of node.startNewRound(s, cache) (the two-argument variant used
by the announcement and finalization handlers): error, nil round, or the
sealed prior round. -/
inductive RoundRes where
  | fail : RoundRes
  | nothing : RoundRes
  | ok (round : FinalRound) : RoundRes
deriving DecidableEq, Repr

/-- Environment of cosiHandleAnnouncement: identity and version constants,
the wall clock and graph-time readings, the round-gap configuration, and
the external collaborators (transaction check, initial-accept predicate,
storage reads, startNewRound). -/
structure AnnounceEnv where
  selfId : Hash
  snapshotVersion : Nat
  now : Nat
  gap : Nat
  refThreshold : Nat
  graphTimestamp : Nat
  checkTransaction : Hash → Hash → TxCheck
  initialAccept : Snapshot → Bool
  readRound : Hash → ReadRes
  readLink : Hash → Hash → Option Nat
  startNewRound : Snapshot → CacheRound → RoundRes

/-- Result of cosiHandleAnnouncement: panic, silent drop, re-queue, error
return, reference adoption (empty-head update persisted and announcement
re-queued), or a Commitment sent back (with the want-tx flag), in the
initial-accept case or the steady case with the graph rounds it ends on. -/
inductive AnnounceOutcome where
  | panicked : AnnounceOutcome
  | dropped : AnnounceOutcome
  | requeued : AnnounceOutcome
  | errored : AnnounceOutcome
  | adoptRequeue (newCache : CacheRound) : AnnounceOutcome
  | initialCommitment (wantTx : Bool) : AnnounceOutcome
  | commitment (cache : CacheRound) (final : FinalRound) (startedNew : Bool)
      (wantTx : Bool) : AnnounceOutcome
deriving DecidableEq, Repr

/-- Shallow embedding of Node.cosiHandleAnnouncement (cosi.go lines
224-338), translated check for check from the source; `cache` and `final`
are the copies of the graph rounds of the announcing chain. -/
def cosiHandleAnnouncement (env : AnnounceEnv) (s : Snapshot)
    (cache : CacheRound) (final : FinalRound) : AnnounceOutcome :=
  if s.nodeId = env.selfId ∨ s.signature ≠ none ∨
      s.version ≠ env.snapshotVersion ∨ s.timestamp = 0 then
    AnnounceOutcome.panicked
  else if env.now + env.gap * env.refThreshold < s.timestamp then
    AnnounceOutcome.dropped
  else if s.timestamp + env.gap * env.refThreshold * 2 < env.graphTimestamp then
    AnnounceOutcome.dropped
  else
    match env.checkTransaction s.nodeId s.transaction with
    | TxCheck.fail => AnnounceOutcome.errored
    | TxCheck.ok true _ => AnnounceOutcome.dropped
    | TxCheck.ok false txKnown =>
      if env.initialAccept s then AnnounceOutcome.initialCommitment (!txKnown)
      else if s.roundNumber < cache.number then AnnounceOutcome.dropped
      else if cache.number + 1 < s.roundNumber then AnnounceOutcome.requeued
      else if s.timestamp ≤ final.start + env.gap then AnnounceOutcome.dropped
      else if s.roundNumber = cache.number ∧ s.references ≠ cache.references then
        if ¬ cache.snapshots.isEmpty then AnnounceOutcome.dropped
        else if s.references.self ≠ cache.references.self then
          AnnounceOutcome.dropped
        else
          match env.readRound cache.references.external with
          | ReadRes.fail => AnnounceOutcome.errored
          | ReadRes.notFound => AnnounceOutcome.panicked
          | ReadRes.found old =>
            match env.readRound s.references.external with
            | ReadRes.fail => AnnounceOutcome.errored
            | ReadRes.notFound => AnnounceOutcome.dropped
            | ReadRes.found ext =>
              if ext.timestamp < old.timestamp + env.refThreshold * env.gap * 32 then
                AnnounceOutcome.dropped
              else
                match env.readLink cache.nodeId ext.nodeId with
                | none => AnnounceOutcome.errored
                | some link =>
                  if ext.number ≤ link then AnnounceOutcome.dropped
                  else
                    AnnounceOutcome.adoptRequeue
                      ⟨cache.nodeId, cache.number, 0,
                        ⟨s.references.self, s.references.external⟩, []⟩
      else if s.roundNumber = cache.number + 1 then
        match env.startNewRound s cache with
        | RoundRes.fail => AnnounceOutcome.requeued
        | RoundRes.nothing => AnnounceOutcome.dropped
        | RoundRes.ok round =>
          let cache2 : CacheRound :=
            ⟨s.nodeId, s.roundNumber, s.timestamp, s.references, []⟩
          if CacheRound.validateSnapshot env.gap cache2 s then
            AnnounceOutcome.commitment cache2 round true (!txKnown)
          else AnnounceOutcome.dropped
      else
        if CacheRound.validateSnapshot env.gap cache s then
          AnnounceOutcome.commitment cache final false (!txKnown)
        else AnnounceOutcome.dropped

/-- C5: for an external announcement in the current round with differing
references (past the handler's earlier gates), the references are adopted —
cache rewritten to the announcement's references, empty-head update
persisted, announcement re-queued — exactly when the cache has no
snapshots, the self reference matches, the currently referenced external
round is at least 32·threshold·gap older than the newly referenced one, and
the new external round's number exceeds the recorded cross-chain link;
otherwise the announcement is dropped. -/
theorem announcement_reference_adoption (env : AnnounceEnv) (s : Snapshot)
    (cache : CacheRound) (final : FinalRound) (old ext : StoredRound)
    (link : Nat) (txKnown : Bool)
    (hself : s.nodeId ≠ env.selfId)
    (hsig : s.signature = none)
    (hver : s.version = env.snapshotVersion)
    (hts : s.timestamp ≠ 0)
    (hfut : ¬ env.now + env.gap * env.refThreshold < s.timestamp)
    (hpast : ¬ s.timestamp + env.gap * env.refThreshold * 2 < env.graphTimestamp)
    (htx : env.checkTransaction s.nodeId s.transaction = TxCheck.ok false txKnown)
    (hia : env.initialAccept s = false)
    (hnum : s.roundNumber = cache.number)
    (hrefs : s.references ≠ cache.references)
    (htse : final.start + env.gap < s.timestamp)
    (hold : env.readRound cache.references.external = ReadRes.found old)
    (hext : env.readRound s.references.external = ReadRes.found ext)
    (hlink : env.readLink cache.nodeId ext.nodeId = some link) :
    (cache.snapshots = [] ∧ s.references.self = cache.references.self ∧
        old.timestamp + env.refThreshold * env.gap * 32 ≤ ext.timestamp ∧
        link < ext.number →
      cosiHandleAnnouncement env s cache final =
        AnnounceOutcome.adoptRequeue
          ⟨cache.nodeId, cache.number, 0,
            ⟨s.references.self, s.references.external⟩, []⟩) ∧
    (¬ (cache.snapshots = [] ∧ s.references.self = cache.references.self ∧
        old.timestamp + env.refThreshold * env.gap * 32 ≤ ext.timestamp ∧
        link < ext.number) →
      cosiHandleAnnouncement env s cache final = AnnounceOutcome.dropped) := by
  have h1 : ¬ (s.nodeId = env.selfId ∨ s.signature ≠ none ∨
      s.version ≠ env.snapshotVersion ∨ s.timestamp = 0) := by
    push_neg
    exact ⟨hself, hsig, hver, hts⟩
  have h5 : ¬ s.roundNumber < cache.number := by omega
  have h6 : ¬ cache.number + 1 < s.roundNumber := by omega
  have h7 : ¬ s.timestamp ≤ final.start + env.gap := by omega
  have key : cosiHandleAnnouncement env s cache final =
      (if ¬ cache.snapshots.isEmpty then AnnounceOutcome.dropped
       else if s.references.self ≠ cache.references.self then
         AnnounceOutcome.dropped
       else
         match env.readRound cache.references.external with
         | ReadRes.fail => AnnounceOutcome.errored
         | ReadRes.notFound => AnnounceOutcome.panicked
         | ReadRes.found old =>
           match env.readRound s.references.external with
           | ReadRes.fail => AnnounceOutcome.errored
           | ReadRes.notFound => AnnounceOutcome.dropped
           | ReadRes.found ext =>
             if ext.timestamp < old.timestamp + env.refThreshold * env.gap * 32 then
               AnnounceOutcome.dropped
             else
               match env.readLink cache.nodeId ext.nodeId with
               | none => AnnounceOutcome.errored
               | some link =>
                 if ext.number ≤ link then AnnounceOutcome.dropped
                 else
                   AnnounceOutcome.adoptRequeue
                     ⟨cache.nodeId, cache.number, 0,
                       ⟨s.references.self, s.references.external⟩, []⟩) := by
    simp only [cosiHandleAnnouncement]
    rw [if_neg h1, if_neg hfut, if_neg hpast, htx]
    simp only [hia, Bool.false_eq_true, if_false]
    rw [if_neg h5, if_neg h6, if_neg h7, if_pos ⟨hnum, hrefs⟩]
  constructor
  · rintro ⟨hemp, hsm, hage, hladv⟩
    rw [key]
    rw [if_neg (by simp [hemp]), if_neg (by simp [hsm])]
    simp only [hold, hext, hlink]
    rw [if_neg (by omega), if_neg (by omega)]
  · intro hbad
    rw [key]
    by_cases hemp : cache.snapshots = []
    · by_cases hsm : s.references.self = cache.references.self
      · rw [if_neg (by simp [hemp]), if_neg (by simp [hsm])]
        simp only [hold, hext, hlink]
        by_cases hage : old.timestamp + env.refThreshold * env.gap * 32 ≤ ext.timestamp
        · by_cases hladv : link < ext.number
          · exact absurd ⟨hemp, hsm, hage, hladv⟩ hbad
          · rw [if_neg (by omega), if_pos (by omega)]
        · rw [if_pos (by omega)]
      · rw [if_neg (by simp [hemp]), if_pos (by simpa using hsm)]
    · rw [if_pos (by simpa [List.isEmpty_iff] using hemp)]

/-- A concrete environment exercising the reference-adoption branch of
cosiHandleAnnouncement: gap 10, reference threshold 2. -/
def envC5 : AnnounceEnv where
  selfId := 9
  snapshotVersion := 1
  now := 1000
  gap := 10
  refThreshold := 2
  graphTimestamp := 900
  checkTransaction := fun _ _ => TxCheck.ok false true
  initialAccept := fun _ => false
  readRound := fun h =>
    if h == 4 then ReadRes.found ⟨3, 1, 100⟩
    else if h == 14 then ReadRes.found ⟨3, 7, 900⟩
    else ReadRes.notFound
  readLink := fun _ _ => some 5
  startNewRound := fun _ _ => RoundRes.nothing

/-- The empty cache round of the announcing chain in the C5 scenario,
referencing external round 4. -/
def cacheC5 : CacheRound := ⟨2, 1, 0, ⟨3, 4⟩, []⟩

/-- An announcement for the current round carrying the newer external
reference 14. -/
def snapC5 : Snapshot where
  version := 1
  nodeId := 2
  roundNumber := 1
  references := ⟨3, 14⟩
  transaction := 7
  timestamp := 990
  signature := none
  hash := 11

/-- Witness for C5: the announcement's references are adopted — the cache
is rewritten and the announcement re-queued. -/
theorem announcement_reference_adoption_witness :
    cosiHandleAnnouncement envC5 snapC5 cacheC5 ⟨2, 0, 100, 500, 3⟩ =
      AnnounceOutcome.adoptRequeue ⟨2, 1, 0, ⟨3, 14⟩, []⟩ :=
  (announcement_reference_adoption envC5 snapC5 cacheC5 ⟨2, 0, 100, 500, 3⟩
      ⟨3, 1, 100⟩ ⟨3, 7, 900⟩ 5 true
      (by decide) rfl rfl (by decide) (by decide) (by decide) rfl rfl rfl
      (by decide) (by decide) rfl rfl rfl).1
    ⟨rfl, rfl, by decide, by decide⟩

/-! ## C2: the steady-state round logic of cosiSendAnnouncement
(cosi.go:154-221) -/

/-- Modelled from the spec: the upper end of the timestamp window covered
by a cache round (`CacheRound.gap()`), the latest contained timestamp. -/
def CacheRound.gapEnd (c : CacheRound) : Nat :=
  (c.snapshots.map Snapshot.timestamp).foldl max 0

/-- Modelled from the spec: `CacheRound.asFinal()` seals the round into an
immutable FinalRound — same chain and number, start the earliest contained
timestamp, end the latest, hash a round-level digest over its snapshots
(the digest primitive is a parameter). -/
def CacheRound.asFinal (digest : CacheRound → Hash) (c : CacheRound) :
    FinalRound :=
  ⟨c.nodeId, c.number, c.gapStart, c.gapEnd, digest c⟩

/-- Environment of the steady-state part of cosiSendAnnouncement:
configuration constants and the external collaborators (payload hash,
round digest, storage reads, best-round selection). -/
structure SendEnv where
  gap : Nat
  refThreshold : Nat
  payloadHash : Snapshot → Hash
  roundDigest : CacheRound → Hash
  readRound : Hash → ReadRes
  readLink : Hash → Hash → Option Nat
  determinBestRound : Nat → Option FinalRound

/-- Result of the steady-state part of cosiSendAnnouncement: error return,
re-queue, panic, empty-head reference refresh (persisted, then re-queued),
or the Announcement broadcast with the stamped snapshot, the graph rounds
it ends on, and the StartNewRound persist call (node, number, references,
start) when a rollover happened. -/
inductive SendOutcome where
  | errored : SendOutcome
  | requeued : SendOutcome
  | panicked : SendOutcome
  | refreshRequeue (newCache : CacheRound) : SendOutcome
  | broadcast (s : Snapshot) (cache : CacheRound) (final : FinalRound)
      (persistedNewRound : Option (Hash × Nat × RoundLink × Nat)) : SendOutcome
deriving DecidableEq, Repr

/-- The common tail of cosiSendAnnouncement (cosi.go lines 208-221): stamp
the cache with the snapshot timestamp, assign round number, references and
payload hash, and broadcast the Announcement. -/
def sendAnnouncementFinish (env : SendEnv) (s : Snapshot) (cache : CacheRound)
    (final : FinalRound) (persisted : Option (Hash × Nat × RoundLink × Nat)) :
    SendOutcome :=
  let cache2 := { cache with timestamp := s.timestamp }
  let s2 := { s with roundNumber := cache2.number, references := cache2.references }
  SendOutcome.broadcast { s2 with hash := env.payloadHash s2 } cache2 final persisted

/-- Shallow embedding of the steady-state part of Node.cosiSendAnnouncement
(cosi.go lines 154-221), entered with the stamped snapshot and the copied
graph rounds; translated check for check from the source. -/
def cosiSendAnnouncementRound (env : SendEnv) (s : Snapshot)
    (cache : CacheRound) (final : FinalRound) : SendOutcome :=
  if cache.snapshots.isEmpty then
    match env.readRound cache.references.external with
    | ReadRes.fail => SendOutcome.errored
    | ReadRes.notFound => SendOutcome.panicked
    | ReadRes.found external =>
      match env.determinBestRound s.timestamp with
      | some best =>
        if best.nodeId ≠ final.nodeId ∧
            external.timestamp + env.refThreshold * env.gap * 36 < best.start then
          match env.readLink cache.nodeId best.nodeId with
          | none => SendOutcome.errored
          | some link =>
            if best.number ≤ link then SendOutcome.requeued
            else
              SendOutcome.refreshRequeue
                ⟨cache.nodeId, cache.number, 0, ⟨final.hash, best.hash⟩, []⟩
        else sendAnnouncementFinish env s cache final none
      | none => sendAnnouncementFinish env s cache final none
  else if cache.gapStart + env.gap ≤ s.timestamp then
    match env.determinBestRound s.timestamp with
    | none => SendOutcome.requeued
    | some best =>
      if best.nodeId = final.nodeId then SendOutcome.panicked
      else
        let f2 := cache.asFinal env.roundDigest
        let cache2 : CacheRound :=
          ⟨s.nodeId, f2.number + 1, 0, ⟨f2.hash, best.hash⟩, []⟩
        sendAnnouncementFinish env s cache2 f2
          (some (cache2.nodeId, cache2.number, cache2.references, f2.start))
  else sendAnnouncementFinish env s cache final none

/-- C2: for a steady-state snapshot over a non-empty cache round whose
stamped timestamp has passed cache.start + gap, with a best external round
available: if its chain equals the sealed final round's chain the process
panics; otherwise the cache is sealed via asFinal, a new cache round with
number final.number + 1 and references {self: final.hash, external:
best.hash} is opened and persisted via StartNewRound, and the snapshot is
broadcast stamped with that round number and those references. -/
theorem send_announcement_rollover (env : SendEnv) (s : Snapshot)
    (cache : CacheRound) (final best f2 : FinalRound) (refs2 : RoundLink)
    (s2 : Snapshot)
    (hne : cache.snapshots ≠ [])
    (hgap : cache.gapStart + env.gap ≤ s.timestamp)
    (hbest : env.determinBestRound s.timestamp = some best)
    (hfn : final.nodeId = cache.nodeId)
    (hf2 : f2 = cache.asFinal env.roundDigest)
    (hrefs2 : refs2 = RoundLink.mk f2.hash best.hash)
    (hs2 : s2 = { s with roundNumber := f2.number + 1, references := refs2 }) :
    (best.nodeId = f2.nodeId →
      cosiSendAnnouncementRound env s cache final = SendOutcome.panicked) ∧
    (best.nodeId ≠ f2.nodeId →
      cosiSendAnnouncementRound env s cache final =
        SendOutcome.broadcast { s2 with hash := env.payloadHash s2 }
          ⟨s.nodeId, f2.number + 1, s.timestamp, refs2, []⟩ f2
          (some (s.nodeId, f2.number + 1, refs2, f2.start))) := by
  have hkey : cosiSendAnnouncementRound env s cache final =
      (if best.nodeId = final.nodeId then SendOutcome.panicked
       else
         sendAnnouncementFinish env s
           ⟨s.nodeId, (cache.asFinal env.roundDigest).number + 1, 0,
             ⟨(cache.asFinal env.roundDigest).hash, best.hash⟩, []⟩
           (cache.asFinal env.roundDigest)
           (some (s.nodeId, (cache.asFinal env.roundDigest).number + 1,
             ⟨(cache.asFinal env.roundDigest).hash, best.hash⟩,
             (cache.asFinal env.roundDigest).start))) := by
    simp only [cosiSendAnnouncementRound]
    rw [if_neg (by simpa [List.isEmpty_iff] using hne), if_pos hgap, hbest]
  have hfid : f2.nodeId = final.nodeId := by
    rw [hf2, hfn]
    rfl
  constructor
  · intro heq
    rw [hkey, if_pos (hfid ▸ heq)]
  · intro hneq
    rw [hkey, if_neg (fun h => hneq (h.trans hfid.symm)), ← hf2, ← hrefs2]
    simp only [sendAnnouncementFinish]
    rw [hs2]

/-- The non-empty cache round sealed in the C2 witness scenario, holding
one snapshot at timestamp 100. -/
def cacheC2 : CacheRound where
  nodeId := 2
  number := 3
  timestamp := 100
  references := ⟨40, 41⟩
  snapshots :=
    [{ version := 1, nodeId := 2, roundNumber := 3, references := ⟨40, 41⟩,
       transaction := 7, timestamp := 100, signature := none, hash := 9 }]

/-- The environment of the C2 witness scenario: gap 50, a best external
round on chain 6. -/
def envC2 : SendEnv where
  gap := 50
  refThreshold := 2
  payloadHash := fun s => s.transaction + s.timestamp
  roundDigest := fun c => c.nodeId * 1000 + c.number
  readRound := fun _ => ReadRes.notFound
  readLink := fun _ _ => some 0
  determinBestRound := fun _ => some ⟨6, 8, 110, 130, 77⟩

/-- The snapshot being announced in the C2 witness scenario, stamped at
160 ≥ 100 + 50. -/
def snapC2 : Snapshot where
  version := 1
  nodeId := 2
  roundNumber := 0
  references := ⟨0, 0⟩
  transaction := 5
  timestamp := 160
  signature := none
  hash := 0

/-- Witness for C2: the cache round is sealed, a new round number 4 with
references {self: sealed hash, external: best hash} is opened and persisted,
and the snapshot is broadcast into it. -/
theorem send_announcement_rollover_witness :
    cosiSendAnnouncementRound envC2 snapC2 cacheC2 ⟨2, 2, 20, 90, 40⟩ =
      SendOutcome.broadcast
        { snapC2 with roundNumber := 4, references := ⟨2003, 77⟩, hash := 165 }
        ⟨2, 4, 160, ⟨2003, 77⟩, []⟩ (cacheC2.asFinal envC2.roundDigest)
        (some (2, 4, ⟨2003, 77⟩, 100)) :=
  (send_announcement_rollover envC2 snapC2 cacheC2 ⟨2, 2, 20, 90, 40⟩
      ⟨6, 8, 110, 130, 77⟩ (cacheC2.asFinal envC2.roundDigest) ⟨2003, 77⟩
      { snapC2 with roundNumber := 4, references := ⟨2003, 77⟩ }
      (by decide) (by decide) rfl (by decide) rfl (by decide) (by decide)).2
    (by decide)

end Mixin
